import Mathlib

/-!
Verification of `cropper.py` (HD-CelebA-Cropper).

Shallow embedding of the alignment-and-crop pipeline of `src/cropper.py`.
The two entry points `align_crop_5pts_opencv` and `align_crop_5pts_skimage`
are embedded as Lean functions over a rational-arithmetic landmark model and
a shape-level image model.  The external collaborators (the numpy pad routine,
the least-squares transform estimator of cv2/skimage, and the warp/resampling
engine) are modelled as function parameters; the embedding records the exact
requests the pipeline sends to them, so theorems can speak both about the
returned crop and about what the code asked the collaborators to do.

Coordinate conventions follow the source: a landmark is an `(x, y)` pair,
`img.shape[0]` is the height and `img.shape[1]` the width.
-/

set_option autoImplicit false
set_option linter.unusedVariables false

namespace Cropper

/-- A 2D point with rational coordinates (exact model of the float landmark
arithmetic of the source). -/
@[ext]
structure Vec2 where
  x : ℚ
  y : ℚ
deriving DecidableEq

/-- Componentwise addition, as in the numpy broadcasts of the source. -/
def Vec2.add (a b : Vec2) : Vec2 := ⟨a.x + b.x, a.y + b.y⟩

/-- Componentwise subtraction. -/
def Vec2.sub (a b : Vec2) : Vec2 := ⟨a.x - b.x, a.y - b.y⟩

/-- Scalar multiplication. -/
def Vec2.smul (s : ℚ) (a : Vec2) : Vec2 := ⟨s * a.x, s * a.y⟩

/-- Row `i` of an `n x 2` landmark array; numpy row indexing, with the
convention that rows beyond the end read as the origin (the claims only use
lists long enough for every access to be in range). -/
def pt (m : List Vec2) (i : ℕ) : Vec2 := (m[i]?).getD ⟨0, 0⟩

/-- Line 95 of the source, the subtrahend:
`np.array([mean_landmarks[0, :] + mean_landmarks[1, :]]) / 2.0`
(the midpoint of the two eye landmarks). -/
def eyeMid (m : List Vec2) : Vec2 := Vec2.smul (1 / 2) (Vec2.add (pt m 0) (pt m 1))

/-- Line 95 of the source: `mean_landmarks -= eyeMid` broadcast over all rows
(the in-place recentering of the mean shape). -/
def recenterLandmarks (m : List Vec2) : List Vec2 :=
  m.map fun p => Vec2.sub p (eyeMid m)

/-- Line 96 of the source:
`trg_landmarks = mean_landmarks * (crop_size * face_factor * landmark_factor) + move`,
broadcast over rows, with `s` the combined scalar and `move` the offset. -/
def projectLandmarks (m : List Vec2) (s : ℚ) (move : Vec2) : List Vec2 :=
  m.map fun p => Vec2.add (Vec2.smul s p) move

/-- The module constant `_DEFAULT_MEAN_LANDMARKS` (lines 8-12), with the float
literals read as exact decimals. -/
def _DEFAULT_MEAN_LANDMARKS : List Vec2 :=
  [⟨-46911814 / 100000000, -51348481 / 100000000⟩,
   ⟨45750203 / 100000000, -53173911 / 100000000⟩,
   ⟨-499168 / 100000000, 6126145 / 100000000⟩,
   ⟨-40616926 / 100000000, 46826089 / 100000000⟩,
   ⟨42776873 / 100000000, 45444013 / 100000000⟩]

/-- The border-fill modes accepted by both entry points (docstring lines 64-66,
and the `border` dict of the opencv backend). -/
inductive BorderMode where
  | constant
  | edge
  | symmetric
  | reflect
  | wrap
deriving DecidableEq

/-- An H x W x C pixel grid.  Only the shape is structural; pixel content is a
total function (values of border fills and resampling are owned by the
external collaborators and never inspected by the claims). -/
structure Image where
  h : ℕ
  w : ℕ
  c : ℕ
  pix : ℕ → ℕ → ℕ → ℚ

/-- Shape-level model of the external collaborator call
`np.pad(img, ((t, b), (l, r), (0, 0)), mode=mode)`: the height grows by
`t + b`, the width by `l + r`, channels are untouched; interior pixels shift
by the leading pad amounts (border fill content belongs to the collaborator). -/
def npPad3 (p0 p1 : ℕ × ℕ) (mode : BorderMode) (img : Image) : Image :=
  { h := img.h + p0.1 + p0.2
    w := img.w + p1.1 + p1.2
    c := img.c
    pix := fun y x ch => img.pix (y - p0.1) (x - p1.1) ch }

/-- A record of one `np.pad` call made by the padding stage: the padded axis
(0 = rows, 1 = columns) and the before/after pad amounts on that axis. -/
structure PadCall where
  axis : ℕ
  before : ℕ
  after : ℕ
  bmode : BorderMode
deriving DecidableEq

/-- The state produced by the padding stage (lines 77-92): the possibly padded
image, the possibly shifted source landmarks and canvas-center offset `move`,
and the trace of `np.pad` calls that were issued. -/
structure PadOut where
  img : Image
  src : List Vec2
  move : ℕ × ℕ
  calls : List PadCall

/-- Lines 77-92 of the source (identical in both backends):
`move = [w // 2, h // 2]`; if `h - crop_size < 0` pad `(-border + 1) // 2` on
top and bottom and shift `src_landmarks` and `move` by that amount in `y`;
likewise for the width in `x`.  Both border tests use the original shape, as
in the source (lines 81-82 run before any pad). -/
def padStage (crop_size : ℕ) (mode : BorderMode) (img : Image) (src : List Vec2) :
    PadOut :=
  let move0 : ℕ × ℕ := (img.w / 2, img.h / 2)
  let s1 : PadOut :=
    if img.h < crop_size then
      let v_half := (crop_size - img.h + 1) / 2
      { img := npPad3 (v_half, v_half) (0, 0) mode img
        src := src.map fun p => Vec2.add p ⟨0, (v_half : ℚ)⟩
        move := (move0.1, move0.2 + v_half)
        calls := [⟨0, v_half, v_half, mode⟩] }
    else
      { img := img, src := src, move := move0, calls := [] }
  if img.w < crop_size then
    let w_half := (crop_size - img.w + 1) / 2
    { img := npPad3 (0, 0) (w_half, w_half) mode s1.img
      src := s1.src.map fun p => Vec2.add p ⟨(w_half : ℚ), 0⟩
      move := (s1.move.1 + w_half, s1.move.2)
      calls := s1.calls ++ [⟨1, w_half, w_half, mode⟩] }
  else
    s1

/-- Line 112 / 188 of the source: `img_align[-crop_size:, -crop_size:]`.
Python slicing with a negative start takes the last `min cs n` rows/columns;
`-0` degenerates to the whole axis, exactly as `a[-0:]` does in python. -/
def cropLast (cs : ℕ) (img : Image) : Image :=
  if cs = 0 then img
  else
    { h := min cs img.h
      w := min cs img.w
      c := img.c
      pix := fun y x ch =>
        img.pix (img.h - min cs img.h + y) (img.w - min cs img.w + x) ch }

/-- A 2x3 affine matrix, the value produced by the external transform
estimator and consumed by the external warp engine; `(x, y)` maps to
`(m00 x + m01 y + m02, m10 x + m11 y + m12)`. -/
structure Transform where
  m00 : ℚ
  m01 : ℚ
  m02 : ℚ
  m10 : ℚ
  m11 : ℚ
  m12 : ℚ
deriving DecidableEq

/-- The full argument list the pipeline hands to the external warp collaborator
(line 109 resp. 185): the padded image, the estimated transform (used as the
output-to-source inverse map), the requested output canvas height and width
`(crop_size // 2 + move + 1)`, the backend interpolation selector (the mapped
cv2 flag for the opencv backend, the raw order for the skimage backend), and
the border mode. -/
structure WarpRequest where
  img : Image
  tform : Transform
  outH : ℕ
  outW : ℕ
  interp : ℕ
  bmode : BorderMode

/-- The failures the source code can actually produce: the `assert` on
`align_type` (line 75 / 154) raising AssertionError, the `inter[order]` dict
lookup raising KeyError for an order outside 0-5 (opencv backend, line 109),
and a failure raised by an external collaborator itself (e.g. cv2 rejecting a
`None` transform after a failed estimation). -/
inductive CropError where
  | assertionError
  | keyError
  | collaboratorError
deriving DecidableEq

/-- Everything observable about one successful call: the returned crop, the
request sent to the warp collaborator, the final (in-place mutated) values of
the `mean_landmarks` and `src_landmarks` arrays, the `np.pad` call trace, and
the final `move` offset. -/
structure CallResult where
  out : Image
  req : WarpRequest
  meanFinal : List Vec2
  srcFinal : List Vec2
  calls : List PadCall
  move : ℕ × ℕ

/-- The `inter` dict of the opencv backend (lines 69-70), mapping the `order`
argument to a cv2 interpolation flag (`INTER_NEAREST = 0`, `INTER_LINEAR = 1`,
`INTER_CUBIC = 2`, `INTER_AREA = 3`, `INTER_LANCZOS4 = 4`); both 4 and 5 map
to `INTER_LANCZOS4`.  A key outside 0-5 is a KeyError, modelled as `none`. -/
def interMap (order : ℕ) : Option ℕ :=
  match order with
  | 0 => some 0
  | 1 => some 1
  | 2 => some 3
  | 3 => some 2
  | 4 => some 4
  | 5 => some 4
  | _ => none

/-- The tail of a successful call, shared by both backends: build the warp
request from the padded state (`output_shape = (crop_size // 2 + move[1] + 1,
crop_size // 2 + move[0] + 1)`, lines 108 / 184), invoke the warp collaborator
`warpFn`, and crop the last `crop_size` rows and columns. -/
def buildResult (warpFn : WarpRequest → Image) (t : Transform) (flag : ℕ)
    (img : Image) (src mean : List Vec2) (crop_size : ℕ) (mode : BorderMode) :
    CallResult :=
  let p := padStage crop_size mode img src
  let req : WarpRequest :=
    ⟨p.img, t, crop_size / 2 + p.move.2 + 1, crop_size / 2 + p.move.1 + 1, flag, mode⟩
  ⟨cropLast crop_size (warpFn req), req, recenterLandmarks mean, p.src, p.calls, p.move⟩

/-- Embedding of `align_crop_5pts_opencv` (lines 33-114).  The external
collaborators are parameters: `warpFn` is `cv2.warpAffine` and `est` is the
estimator pair `cv2.estimateAffine2D` / `cv2.estimateAffinePartial2D` keyed by
`align_type` (the source selects between them on line 102); `est` returning
`none` models cv2 failing to produce a transform, which the source never
checks, so the failure surfaces at the warp call as the collaborator own
error.  The `inter[order]` lookup happens while evaluating the arguments of
the warp call, hence after estimation but before the transform is consumed. -/
def align_crop_5pts_opencv (warpFn : WarpRequest → Image)
    (est : String → List Vec2 → List Vec2 → Option Transform)
    (img : Image) (src_landmarks mean_landmarks : List Vec2)
    (crop_size : ℕ) (face_factor landmark_factor : ℚ)
    (align_type : String) (order : ℕ) (mode : BorderMode) :
    Except CropError CallResult :=
  if align_type = "affine" ∨ align_type = "similarity" then
    let p := padStage crop_size mode img src_landmarks
    let trg := projectLandmarks (recenterLandmarks mean_landmarks)
      ((crop_size : ℚ) * face_factor * landmark_factor)
      ⟨(p.move.1 : ℚ), (p.move.2 : ℚ)⟩
    let tf := est align_type trg p.src
    match interMap order with
    | none => Except.error CropError.keyError
    | some flag =>
      match tf with
      | none => Except.error CropError.collaboratorError
      | some t =>
        Except.ok (buildResult warpFn t flag img src_landmarks mean_landmarks
          crop_size mode)
  else
    Except.error CropError.assertionError

/-- Embedding of `align_crop_5pts_skimage` (lines 117-190).  Identical to the
opencv backend except that the estimator is
`skimage.transform.estimate_transform(align_type, trg, src)` and the
interpolation `order` is passed to the warp collaborator unchanged (no flag
dictionary). -/
def align_crop_5pts_skimage (warpFn : WarpRequest → Image)
    (est : String → List Vec2 → List Vec2 → Option Transform)
    (img : Image) (src_landmarks mean_landmarks : List Vec2)
    (crop_size : ℕ) (face_factor landmark_factor : ℚ)
    (align_type : String) (order : ℕ) (mode : BorderMode) :
    Except CropError CallResult :=
  if align_type = "affine" ∨ align_type = "similarity" then
    let p := padStage crop_size mode img src_landmarks
    let trg := projectLandmarks (recenterLandmarks mean_landmarks)
      ((crop_size : ℚ) * face_factor * landmark_factor)
      ⟨(p.move.1 : ℚ), (p.move.2 : ℚ)⟩
    match est align_type trg p.src with
    | none => Except.error CropError.collaboratorError
    | some t =>
      Except.ok (buildResult warpFn t order img src_landmarks mean_landmarks
        crop_size mode)
  else
    Except.error CropError.assertionError

/-- A warp collaborator conforming to the resampler contract: the returned
canvas has exactly the requested output shape with channels preserved (used to
instantiate theorems; pixel content is irrelevant to every claim). -/
def modelWarp (req : WarpRequest) : Image :=
  { h := req.outH, w := req.outW, c := req.img.c
    pix := fun y x ch => req.img.pix y x ch }

/-- A trivially succeeding estimator collaborator (the identity transform),
used to instantiate theorems whose content does not depend on the fit. -/
def simpleEst (_kind : String) (_u _v : List Vec2) : Option Transform :=
  some ⟨1, 0, 0, 0, 1, 0⟩

/-- Centroid of a point list (mean row of an `n x 2` array). -/
def centroid (u : List Vec2) : Vec2 :=
  Vec2.smul (1 / (u.length : ℚ)) (u.foldr Vec2.add ⟨0, 0⟩)

/-- Sum of a list of rationals. -/
def sumQ (l : List ℚ) : ℚ := l.foldr (· + ·) 0

/-- Closed-form least-squares similarity fit from point set `u` to point set
`v`: the documented behavior of the external estimator collaborator for
the similarity align type with outlier rejection disabled (all points are
inliers, plain least squares).  It fails (`none`) only when the point counts
differ, no points are given, or every `u` point coincides (zero spread), the
only situations in which no best-fit similarity exists. -/
def lsqSimilarity (u v : List Vec2) : Option Transform :=
  if u.length = 0 then none
  else if u.length ≠ v.length then none
  else
    let ubar := centroid u
    let vbar := centroid v
    let uc := u.map fun p => Vec2.sub p ubar
    let vc := v.map fun p => Vec2.sub p vbar
    let spread := sumQ (uc.map fun p => p.x * p.x + p.y * p.y)
    if spread = 0 then none
    else
      let a := sumQ (List.zipWith (fun p q => p.x * q.x + p.y * q.y) uc vc) / spread
      let b := sumQ (List.zipWith (fun p q => p.x * q.y - p.y * q.x) uc vc) / spread
      some ⟨a, -b, vbar.x - (a * ubar.x - b * ubar.y),
            b, a, vbar.y - (b * ubar.x + a * ubar.y)⟩

/-- Model of the external transform-estimation collaborator with the robust
threshold disabled: a plain least-squares similarity fit for the similarity
kind (the only kind the theorems below instantiate). -/
def modelEstimate (kind : String) (u v : List Vec2) : Option Transform :=
  if kind = "similarity" then lsqSimilarity u v else none

/-- Shape `(rows, cols, channels)` of the crop of a successful call. -/
def okShape (e : Except CropError CallResult) : Option (ℕ × ℕ × ℕ) :=
  e.toOption.map fun r => (r.out.h, r.out.w, r.out.c)

/-- Final value of the `mean_landmarks` array after a successful call. -/
def resMeanFinal (e : Except CropError CallResult) : Option (List Vec2) :=
  e.toOption.map fun r => r.meanFinal

/-- Interpolation selector a successful call sent to the warp collaborator. -/
def resInterp (e : Except CropError CallResult) : Option ℕ :=
  e.toOption.map fun r => r.req.interp

/-- Trace of `np.pad` calls issued during a successful call. -/
def resCalls (e : Except CropError CallResult) : Option (List PadCall) :=
  e.toOption.map fun r => r.calls

/-! ### Concrete fixtures used by counterexamples and witnesses -/

/-- A 256 x 256 RGB test image (the concrete scenario of spec section 8). -/
def img256 : Image := ⟨256, 256, 3, fun _ _ _ => 1⟩

/-- A 600 x 600 RGB test image, larger than the default crop size. -/
def imgBig : Image := ⟨600, 600, 3, fun _ _ _ => 1⟩

/-- A 5 x 6 x 3 test image, smaller than a crop size of 8 on both axes. -/
def imgSmall : Image := ⟨5, 6, 3, fun _ _ _ => 0⟩

/-- A generic well-formed 5-point source landmark list. -/
def srcT : List Vec2 := [⟨10, 20⟩, ⟨30, 20⟩, ⟨20, 30⟩, ⟨12, 40⟩, ⟨28, 40⟩]

/-- Five pairwise distinct collinear source landmarks (on the line y = x). -/
def srcCollinear : List Vec2 := [⟨0, 0⟩, ⟨1, 1⟩, ⟨2, 2⟩, ⟨3, 3⟩, ⟨4, 4⟩]

/-- A malformed source landmark array with only four rows. -/
def srcFour : List Vec2 := [⟨10, 20⟩, ⟨30, 20⟩, ⟨20, 30⟩, ⟨12, 40⟩]

/-- A simple non-degenerate canonical mean shape with integer coordinates. -/
def meanSimple : List Vec2 := [⟨-1, -1⟩, ⟨1, -1⟩, ⟨0, 0⟩, ⟨-1, 1⟩, ⟨1, 1⟩]

/-! ### Helper lemmas -/

/-- The `(deficit + 1) // 2` rounding of the source equals the ceiling of half
the deficit. -/
lemma ceil_half (d : ℕ) : (((d + 1) / 2 : ℕ) : ℤ) = ⌈((d : ℚ)) / 2⌉ := by
  rcases Nat.even_or_odd d with ⟨m, hm⟩ | ⟨m, hm⟩
  · subst hm
    have h1 : ((m + m + 1) / 2 : ℕ) = m := by omega
    rw [h1, show ((m + m : ℕ) : ℚ) / 2 = (m : ℚ) by push_cast; ring]
    simp
  · subst hm
    have h1 : ((2 * m + 1 + 1) / 2 : ℕ) = m + 1 := by omega
    rw [h1]
    symm
    rw [Int.ceil_eq_iff]
    constructor
    · push_cast
      linarith
    · push_cast
      linarith

/-- The canvas-center offset produced by the padding stage, in closed form. -/
lemma padStage_move (cs : ℕ) (mode : BorderMode) (img : Image) (src : List Vec2) :
    (padStage cs mode img src).move =
      ((if img.w < cs then img.w / 2 + (cs - img.w + 1) / 2 else img.w / 2),
       (if img.h < cs then img.h / 2 + (cs - img.h + 1) / 2 else img.h / 2)) := by
  by_cases h1 : img.h < cs <;> by_cases h2 : img.w < cs <;>
    simp [padStage, h1, h2]

/-- The padding stage never changes the channel count. -/
lemma padStage_img_c (cs : ℕ) (mode : BorderMode) (img : Image) (src : List Vec2) :
    (padStage cs mode img src).img.c = img.c := by
  by_cases h1 : img.h < cs <;> by_cases h2 : img.w < cs <;>
    simp [padStage, npPad3, h1, h2]

/-- A list of length five is literally a five-element list. -/
lemma five_elems (m : List Vec2) (h : m.length = 5) :
    ∃ a b c d e, m = [a, b, c, d, e] := by
  match m, h with
  | [a, b, c, d, e], _ => exact ⟨a, b, c, d, e, rfl⟩

/-- The pre-crop canvas extent on one axis is at least the crop size, for any
image extent `n` on that axis (padded or not). -/
lemma canvas_big (cs n : ℕ) (h1 : 1 ≤ cs) :
    min cs (cs / 2 + (if n < cs then n / 2 + (cs - n + 1) / 2 else n / 2) + 1) = cs := by
  split <;> omega

/-- If the warp collaborator honors the output-shape contract, the crop step
of a successful call returns exactly a crop_size square with the channel count
of the input image. -/
lemma buildResult_shape (warpFn : WarpRequest → Image) (t : Transform) (flag : ℕ)
    (img : Image) (src mean : List Vec2) (cs : ℕ) (mode : BorderMode)
    (h1 : 1 ≤ cs)
    (hw : ∀ req, (warpFn req).h = req.outH ∧ (warpFn req).w = req.outW
      ∧ (warpFn req).c = req.img.c) :
    (buildResult warpFn t flag img src mean cs mode).out.h = cs
    ∧ (buildResult warpFn t flag img src mean cs mode).out.w = cs
    ∧ (buildResult warpFn t flag img src mean cs mode).out.c = img.c := by
  obtain ⟨hh, hww, hcc⟩ := hw ⟨(padStage cs mode img src).img, t,
    cs / 2 + (padStage cs mode img src).move.2 + 1,
    cs / 2 + (padStage cs mode img src).move.1 + 1, flag, mode⟩
  have hm := padStage_move cs mode img src
  have hm2 : (padStage cs mode img src).move.2
      = (if img.h < cs then img.h / 2 + (cs - img.h + 1) / 2 else img.h / 2) := by
    rw [hm]
  have hm1 : (padStage cs mode img src).move.1
      = (if img.w < cs then img.w / 2 + (cs - img.w + 1) / 2 else img.w / 2) := by
    rw [hm]
  have hc := padStage_img_c cs mode img src
  have hcs : ¬ cs = 0 := by omega
  refine ⟨?_, ?_, ?_⟩ <;> simp only [buildResult, cropLast, if_neg hcs]
  · rw [hh, hm2]
    exact canvas_big cs img.h h1
  · rw [hww, hm1]
    exact canvas_big cs img.w h1
  · rw [hcc]
    exact hc

/-! ### Claim theorems -/

/-- C1: for every input image and every configuration with a positive
crop_size, whenever either backend returns a value at all, that value has
exactly crop_size rows and crop_size columns, with the channel count of the
input preserved — for any estimator behavior and any warp collaborator that
honors the resampler shape contract of spec section 4.5. -/
theorem crop_always_crop_size_square :
    (∀ (warpFn : WarpRequest → Image)
       (est : String → List Vec2 → List Vec2 → Option Transform)
       (img : Image) (src mean : List Vec2) (cs : ℕ) (ff lf : ℚ)
       (alignType : String) (ord : ℕ) (mode : BorderMode) (r : CallResult),
      1 ≤ cs →
      (∀ req, (warpFn req).h = req.outH ∧ (warpFn req).w = req.outW
        ∧ (warpFn req).c = req.img.c) →
      align_crop_5pts_opencv warpFn est img src mean cs ff lf alignType ord mode
        = Except.ok r →
      r.out.h = cs ∧ r.out.w = cs ∧ r.out.c = img.c)
    ∧ (∀ (warpFn : WarpRequest → Image)
       (est : String → List Vec2 → List Vec2 → Option Transform)
       (img : Image) (src mean : List Vec2) (cs : ℕ) (ff lf : ℚ)
       (alignType : String) (ord : ℕ) (mode : BorderMode) (r : CallResult),
      1 ≤ cs →
      (∀ req, (warpFn req).h = req.outH ∧ (warpFn req).w = req.outW
        ∧ (warpFn req).c = req.img.c) →
      align_crop_5pts_skimage warpFn est img src mean cs ff lf alignType ord mode
        = Except.ok r →
      r.out.h = cs ∧ r.out.w = cs ∧ r.out.c = img.c) := by
  constructor
  · intro warpFn est img src mean cs ff lf alignType ord mode r h1 hw hok
    simp only [align_crop_5pts_opencv] at hok
    split at hok
    · split at hok
      · exact absurd hok (by simp)
      · split at hok
        · exact absurd hok (by simp)
        · injection hok with h2
          subst h2
          exact buildResult_shape warpFn _ _ img src mean cs mode h1 hw
    · exact absurd hok (by simp)
  · intro warpFn est img src mean cs ff lf alignType ord mode r h1 hw hok
    simp only [align_crop_5pts_skimage] at hok
    split at hok
    · split at hok
      · exact absurd hok (by simp)
      · injection hok with h2
        subst h2
        exact buildResult_shape warpFn _ _ img src mean cs mode h1 hw
    · exact absurd hok (by simp)

/-- C1 witness: both backends applied at concrete inputs — a 5 x 6 image with
crop_size 8 (padding on both axes) and a 600 x 600 image with crop_size 16
(no padding) — produce crops of exactly the requested square shape. -/
theorem crop_always_crop_size_square_wit :
    okShape (align_crop_5pts_opencv modelWarp simpleEst imgSmall srcT meanSimple 8
        (65 / 100) (35 / 100) "similarity" 3 BorderMode.edge) = some (8, 8, 3)
    ∧ okShape (align_crop_5pts_skimage modelWarp simpleEst imgBig srcT meanSimple 16
        (65 / 100) (35 / 100) "affine" 2 BorderMode.wrap) = some (16, 16, 3) := by
  constructor
  · cases hok : align_crop_5pts_opencv modelWarp simpleEst imgSmall srcT meanSimple 8
        (65 / 100) (35 / 100) "similarity" 3 BorderMode.edge with
    | error e =>
      have hIs : (align_crop_5pts_opencv modelWarp simpleEst imgSmall srcT meanSimple 8
          (65 / 100) (35 / 100) "similarity" 3 BorderMode.edge).isOk = true := by decide
      rw [hok] at hIs
      simp [Except.isOk, Except.toBool] at hIs
    | ok r =>
      have h := crop_always_crop_size_square.1 modelWarp simpleEst imgSmall srcT
          meanSimple 8 (65 / 100) (35 / 100) "similarity" 3 BorderMode.edge r (by omega)
          (fun req => ⟨rfl, rfl, rfl⟩) hok
      rw [show okShape (Except.ok r) = some (r.out.h, r.out.w, r.out.c) from rfl,
        h.1, h.2.1, h.2.2]
      rfl
  · cases hok : align_crop_5pts_skimage modelWarp simpleEst imgBig srcT meanSimple 16
        (65 / 100) (35 / 100) "affine" 2 BorderMode.wrap with
    | error e =>
      have hIs : (align_crop_5pts_skimage modelWarp simpleEst imgBig srcT meanSimple 16
          (65 / 100) (35 / 100) "affine" 2 BorderMode.wrap).isOk = true := by decide
      rw [hok] at hIs
      simp [Except.isOk, Except.toBool] at hIs
    | ok r =>
      have h := crop_always_crop_size_square.2 modelWarp simpleEst imgBig srcT
          meanSimple 16 (65 / 100) (35 / 100) "affine" 2 BorderMode.wrap r (by omega)
          (fun req => ⟨rfl, rfl, rfl⟩) hok
      rw [show okShape (Except.ok r) = some (r.out.h, r.out.w, r.out.c) from rfl,
        h.1, h.2.1, h.2.2]
      rfl

/-- C2 counterexample: on a 256 x 256 image with crop_size 512 the padding
stage pads both axes with `(512 - 256 + 1) // 2 = 128` pixels per side, not
the 129 pixels the claim states; `128 ≠ 129` refutes the claimed half-deficit
value. -/
theorem pad_256_512_halves_are_128 :
    resCalls (align_crop_5pts_opencv modelWarp simpleEst img256 srcT _DEFAULT_MEAN_LANDMARKS
        512 (65 / 100) (35 / 100) "similarity" 3 BorderMode.edge)
      = some [⟨0, 128, 128, BorderMode.edge⟩, ⟨1, 128, 128, BorderMode.edge⟩]
    ∧ (128 : ℕ) ≠ 129 :=
  ⟨by decide, by decide⟩

/-- C2 (amended): for a 256 x 256 input with crop_size 512 and default
factors, padding triggers on both axes with half-deficit
`(512 - 256 + 1) // 2 = 128` pixels per side, and the output shape is exactly
512 x 512 (channels preserved). -/
theorem pad_256_512_scenario :
    okShape (align_crop_5pts_opencv modelWarp simpleEst img256 srcT _DEFAULT_MEAN_LANDMARKS
        512 (65 / 100) (35 / 100) "similarity" 3 BorderMode.edge) = some (512, 512, 3)
    ∧ resCalls (align_crop_5pts_opencv modelWarp simpleEst img256 srcT _DEFAULT_MEAN_LANDMARKS
        512 (65 / 100) (35 / 100) "similarity" 3 BorderMode.edge)
      = some [⟨0, 128, 128, BorderMode.edge⟩, ⟨1, 128, 128, BorderMode.edge⟩] :=
  ⟨by decide, by decide⟩

/-- C3: if the image height is below crop_size the padding stage issues a
single symmetric row pad whose per-side amount is `(cs - h + 1) // 2`, which
equals `ceil((cs - h) / 2)`; the padded height grows by twice that amount, and
both the source landmarks and the `move` offset shift by it in `y`.  The
mirrored statement holds for the width in `x` (with the axis-1 pad call).
This covers both backends: lines 80-92 and 159-171 are the same `padStage`. -/
theorem padding_symmetry_and_shift (cs : ℕ) (mode : BorderMode) (img : Image)
    (src : List Vec2) :
    (img.h < cs →
      (((cs - img.h + 1) / 2 : ℕ) : ℤ) = ⌈((cs : ℚ) - (img.h : ℚ)) / 2⌉
      ∧ (padStage cs mode img src).calls.head? =
          some ⟨0, (cs - img.h + 1) / 2, (cs - img.h + 1) / 2, mode⟩
      ∧ (padStage cs mode img src).img.h =
          img.h + (cs - img.h + 1) / 2 + (cs - img.h + 1) / 2
      ∧ (padStage cs mode img src).src.map Vec2.y
          = src.map (fun p => p.y + (((cs - img.h + 1) / 2 : ℕ) : ℚ))
      ∧ (padStage cs mode img src).move.2 = img.h / 2 + (cs - img.h + 1) / 2)
    ∧ (img.w < cs →
      (((cs - img.w + 1) / 2 : ℕ) : ℤ) = ⌈((cs : ℚ) - (img.w : ℚ)) / 2⌉
      ∧ (padStage cs mode img src).calls.getLast? =
          some ⟨1, (cs - img.w + 1) / 2, (cs - img.w + 1) / 2, mode⟩
      ∧ (padStage cs mode img src).img.w =
          img.w + (cs - img.w + 1) / 2 + (cs - img.w + 1) / 2
      ∧ (padStage cs mode img src).src.map Vec2.x
          = src.map (fun p => p.x + (((cs - img.w + 1) / 2 : ℕ) : ℚ))
      ∧ (padStage cs mode img src).move.1 = img.w / 2 + (cs - img.w + 1) / 2) := by
  constructor
  · intro hv
    have hceil : (((cs - img.h + 1) / 2 : ℕ) : ℤ) = ⌈((cs : ℚ) - (img.h : ℚ)) / 2⌉ := by
      rw [← Nat.cast_sub (le_of_lt hv)]
      exact ceil_half (cs - img.h)
    refine ⟨hceil, ?_, ?_, ?_, ?_⟩ <;>
      by_cases h2 : img.w < cs <;>
        simp [padStage, npPad3, hv, h2, List.map_map, Function.comp, Vec2.add]
  · intro hw
    have hceil : (((cs - img.w + 1) / 2 : ℕ) : ℤ) = ⌈((cs : ℚ) - (img.w : ℚ)) / 2⌉ := by
      rw [← Nat.cast_sub (le_of_lt hw)]
      exact ceil_half (cs - img.w)
    refine ⟨hceil, ?_, ?_, ?_, ?_⟩ <;>
      by_cases h1 : img.h < cs <;>
        simp [padStage, npPad3, hw, h1, List.map_map, Function.comp, Vec2.add]

/-- C3 witness: the padding theorem applied to a concrete 5 x 6 image with
crop_size 8; height pad is 2 per side, width pad is 1 per side. -/
theorem padding_symmetry_and_shift_wit :
    ((((8 - 5 + 1) / 2 : ℕ) : ℤ) = ⌈(((8 : ℕ) : ℚ) - ((5 : ℕ) : ℚ)) / 2⌉
      ∧ (padStage 8 BorderMode.edge imgSmall srcT).calls.head? =
          some ⟨0, 2, 2, BorderMode.edge⟩
      ∧ (padStage 8 BorderMode.edge imgSmall srcT).img.h = 9
      ∧ (padStage 8 BorderMode.edge imgSmall srcT).src.map Vec2.y
          = srcT.map (fun p => p.y + ((2 : ℕ) : ℚ))
      ∧ (padStage 8 BorderMode.edge imgSmall srcT).move.2 = 4)
    ∧ ((((8 - 6 + 1) / 2 : ℕ) : ℤ) = ⌈(((8 : ℕ) : ℚ) - ((6 : ℕ) : ℚ)) / 2⌉
      ∧ (padStage 8 BorderMode.edge imgSmall srcT).calls.getLast? =
          some ⟨1, 1, 1, BorderMode.edge⟩
      ∧ (padStage 8 BorderMode.edge imgSmall srcT).img.w = 8
      ∧ (padStage 8 BorderMode.edge imgSmall srcT).src.map Vec2.x
          = srcT.map (fun p => p.x + ((1 : ℕ) : ℚ))
      ∧ (padStage 8 BorderMode.edge imgSmall srcT).move.1 = 4) :=
  ⟨(padding_symmetry_and_shift 8 BorderMode.edge imgSmall srcT).1 (by decide),
   (padding_symmetry_and_shift 8 BorderMode.edge imgSmall srcT).2 (by decide)⟩

/-- C4: when the image already meets or exceeds crop_size on both axes, the
padding stage issues no pad call at all and leaves the image, the source
landmarks, and the canvas-center offset `move = (w // 2, h // 2)` unchanged. -/
theorem no_padding_when_at_least_crop (cs : ℕ) (mode : BorderMode) (img : Image)
    (src : List Vec2) (hv : cs ≤ img.h) (hw : cs ≤ img.w) :
    padStage cs mode img src = ⟨img, src, (img.w / 2, img.h / 2), []⟩ := by
  simp [padStage, Nat.not_lt.mpr hv, Nat.not_lt.mpr hw]

/-- C4 witness: the no-padding theorem applied to a concrete 600 x 600 image
with crop_size 4. -/
theorem no_padding_when_at_least_crop_wit :
    padStage 4 BorderMode.edge imgBig srcT = ⟨imgBig, srcT, (300, 300), []⟩ :=
  no_padding_when_at_least_crop 4 BorderMode.edge imgBig srcT (by decide) (by decide)

/-- C5: for any 5-point mean shape, the recentered shape has its eye-midpoint
exactly at the origin, and the target landmarks handed to the transform
estimator equal `(mean - eye_midpoint) * (crop_size * face_factor *
landmark_factor) + move` pointwise — a pure scale-and-translate of the mean
shape (no rotation or skew appears in the projection). -/
theorem target_projection (m : List Vec2) (cs : ℕ) (ff lf : ℚ) (move : Vec2)
    (h5 : m.length = 5) :
    eyeMid (recenterLandmarks m) = ⟨0, 0⟩
    ∧ projectLandmarks (recenterLandmarks m) ((cs : ℚ) * ff * lf) move
      = m.map (fun p => Vec2.add (Vec2.smul ((cs : ℚ) * ff * lf)
          (Vec2.sub p (eyeMid m))) move) := by
  obtain ⟨a, b, c, d, e, rfl⟩ := five_elems m h5
  constructor
  · simp [recenterLandmarks, eyeMid, pt, Vec2.sub, Vec2.add, Vec2.smul]
    constructor <;> ring
  · simp [projectLandmarks, recenterLandmarks, List.map_map, Function.comp]

/-- C5 witness: the projection theorem applied to a concrete mean shape with
the default crop size and factors. -/
theorem target_projection_wit :
    eyeMid (recenterLandmarks meanSimple) = ⟨0, 0⟩
    ∧ projectLandmarks (recenterLandmarks meanSimple)
        (((512 : ℕ) : ℚ) * (65 / 100) * (35 / 100)) ⟨300, 300⟩
      = meanSimple.map (fun p => Vec2.add (Vec2.smul
          (((512 : ℕ) : ℚ) * (65 / 100) * (35 / 100))
          (Vec2.sub p (eyeMid meanSimple))) ⟨300, 300⟩) :=
  target_projection meanSimple 512 (65 / 100) (35 / 100) ⟨300, 300⟩ (by decide)

/-- C10: the eye-midpoint recentering of line 95 is idempotent in exact
arithmetic — recentering an already recentered 5-point shape is the identity —
so a second call that receives the in-place-mutated mean-shape array (e.g. the
module default) computes exactly the same target landmarks as the first. -/
theorem recenter_idempotent (m : List Vec2) (s : ℚ) (move : Vec2)
    (h5 : m.length = 5) :
    recenterLandmarks (recenterLandmarks m) = recenterLandmarks m
    ∧ projectLandmarks (recenterLandmarks (recenterLandmarks m)) s move
      = projectLandmarks (recenterLandmarks m) s move := by
  obtain ⟨a, b, c, d, e, rfl⟩ := five_elems m h5
  have h1 : recenterLandmarks (recenterLandmarks [a, b, c, d, e])
      = recenterLandmarks [a, b, c, d, e] := by
    simp [recenterLandmarks, eyeMid, pt, Vec2.sub, Vec2.add, Vec2.smul]
    and_intros <;> ring
  exact ⟨h1, by rw [h1]⟩

/-- C6 (amended): on the opencv backend, calling with interpolation order 4
and with order 5 yields literally the same result for every input and every
collaborator behavior, because `inter[4]` and `inter[5]` are both
`INTER_LANCZOS4`, so the warp request is identical.  (The skimage backend does
not share this property; see the counterexample.) -/
theorem opencv_order4_eq_order5 (warpFn : WarpRequest → Image)
    (est : String → List Vec2 → List Vec2 → Option Transform)
    (img : Image) (src mean : List Vec2) (cs : ℕ) (ff lf : ℚ)
    (alignType : String) (mode : BorderMode) :
    align_crop_5pts_opencv warpFn est img src mean cs ff lf alignType 4 mode
      = align_crop_5pts_opencv warpFn est img src mean cs ff lf alignType 5 mode := rfl

/-- C6 counterexample: the skimage backend passes the raw order through to the
resampler, so the warp requests for order 4 (bi-quartic) and order 5
(bi-quintic) name different interpolation kernels — the outputs of an
order-sensitive resampler (as the real bi-quartic and bi-quintic splines are)
therefore differ, refuting the claim that the two orders are aliases on both
entry points. -/
theorem skimage_order45_requests_differ :
    resInterp (align_crop_5pts_skimage modelWarp simpleEst img256 srcT
        _DEFAULT_MEAN_LANDMARKS 512 (65 / 100) (35 / 100) "similarity" 4 BorderMode.edge)
    ≠ resInterp (align_crop_5pts_skimage modelWarp simpleEst img256 srcT
        _DEFAULT_MEAN_LANDMARKS 512 (65 / 100) (35 / 100) "similarity" 5 BorderMode.edge) := by
  decide

/-- C7 (amended): the only eager validation in either backend is the
`align_type` assert; a call fails with the assertion error exactly when
`align_type` is neither "affine" nor "similarity", for every other argument
value (landmark shape and crop_size are never validated). -/
theorem assertion_only_for_bad_align_type :
    (∀ (warpFn : WarpRequest → Image)
       (est : String → List Vec2 → List Vec2 → Option Transform)
       (img : Image) (src mean : List Vec2) (cs : ℕ) (ff lf : ℚ)
       (alignType : String) (ord : ℕ) (mode : BorderMode),
      (align_crop_5pts_opencv warpFn est img src mean cs ff lf alignType ord mode
        = Except.error CropError.assertionError)
      ↔ ¬(alignType = "affine" ∨ alignType = "similarity"))
    ∧ (∀ (warpFn : WarpRequest → Image)
       (est : String → List Vec2 → List Vec2 → Option Transform)
       (img : Image) (src mean : List Vec2) (cs : ℕ) (ff lf : ℚ)
       (alignType : String) (ord : ℕ) (mode : BorderMode),
      (align_crop_5pts_skimage warpFn est img src mean cs ff lf alignType ord mode
        = Except.error CropError.assertionError)
      ↔ ¬(alignType = "affine" ∨ alignType = "similarity")) := by
  constructor
  · intro warpFn est img src mean cs ff lf alignType ord mode
    refine ⟨fun h => ?_, fun hn => ?_⟩
    · intro hat
      simp only [align_crop_5pts_opencv] at h
      split at h
      · split at h
        · simp_all
        · split at h <;> simp_all
      · simp_all
    · simp [align_crop_5pts_opencv, hn]
  · intro warpFn est img src mean cs ff lf alignType ord mode
    refine ⟨fun h => ?_, fun hn => ?_⟩
    · intro hat
      simp only [align_crop_5pts_skimage] at h
      split at h
      · split at h <;> simp_all
      · simp_all
    · simp [align_crop_5pts_skimage, hn]

/-- C7 counterexample: two claimed-invalid inputs that do not fail with any
eager argument-validation error.  With `crop_size = 0` (not a positive
integer) the scale factor is 0, every target point collapses onto `move`, and
only the estimator collaborator fails — the call runs the whole padding and
projection pipeline first and surfaces the collaborator failure, which is a
different error from the assertion that models the code only argument check.
Likewise a four-row landmark array passes unvalidated into the estimator and
is rejected there by its point-count check, again as a collaborator failure
after the pipeline has run. -/
theorem invalid_args_fail_only_in_collaborator :
    align_crop_5pts_opencv modelWarp modelEstimate imgBig srcT meanSimple
        0 (65 / 100) (35 / 100) "similarity" 3 BorderMode.edge
      = Except.error CropError.collaboratorError
    ∧ align_crop_5pts_opencv modelWarp modelEstimate imgBig srcFour meanSimple
        512 (65 / 100) (35 / 100) "similarity" 3 BorderMode.edge
      = Except.error CropError.collaboratorError
    ∧ CropError.collaboratorError ≠ CropError.assertionError := by
  refine ⟨?_, ?_, by decide⟩
  · norm_num [align_crop_5pts_opencv, modelEstimate, lsqSimilarity, padStage, npPad3,
      projectLandmarks, recenterLandmarks, eyeMid, pt, centroid, sumQ,
      Vec2.add, Vec2.sub, Vec2.smul, meanSimple, srcT, imgBig, interMap, buildResult]
  · norm_num [align_crop_5pts_opencv, modelEstimate, lsqSimilarity, padStage, npPad3,
      projectLandmarks, recenterLandmarks, eyeMid, pt, centroid, sumQ,
      Vec2.add, Vec2.sub, Vec2.smul, meanSimple, srcFour, imgBig, interMap, buildResult]

/-- C8 (amended): the source performs no degeneracy check — with five
pairwise-distinct collinear source landmarks and a non-degenerate mean shape,
the similarity path of the opencv backend succeeds for every warp collaborator
(the least-squares similarity fit of the estimator collaborator exists because
the target points are spread out), returning a crop without any error. -/
theorem collinear_similarity_succeeds (warpFn : WarpRequest → Image) :
    (align_crop_5pts_opencv warpFn modelEstimate imgBig srcCollinear meanSimple
      512 (1 / 2) (1 / 2) "similarity" 3 BorderMode.edge).isOk = true := by
  norm_num [align_crop_5pts_opencv, modelEstimate, lsqSimilarity, padStage, npPad3,
    projectLandmarks, recenterLandmarks, eyeMid, pt, centroid, sumQ,
    Vec2.add, Vec2.sub, Vec2.smul, meanSimple, srcCollinear, imgBig, interMap,
    buildResult, Except.isOk, Except.toBool]

/-- C8 counterexample: five distinct collinear source landmarks do not make
the operation fail — the call returns successfully (the code contains no
`DegenerateLandmarksError` and never inspects the estimated transform), which
refutes the claimed rejection of degenerate inputs. -/
theorem collinear_landmarks_no_error :
    (align_crop_5pts_opencv modelWarp modelEstimate imgBig srcCollinear meanSimple
      512 (1 / 2) (1 / 2) "similarity" 3 BorderMode.edge).isOk = true := by
  norm_num [align_crop_5pts_opencv, modelEstimate, lsqSimilarity, padStage, npPad3,
    projectLandmarks, recenterLandmarks, eyeMid, pt, centroid, sumQ,
    Vec2.add, Vec2.sub, Vec2.smul, meanSimple, srcCollinear, imgBig, interMap,
    buildResult, Except.isOk, Except.toBool]

/-- C9 (amended): a successful call leaves the caller-visible `mean_landmarks`
array holding the recentered shape — whenever the eye midpoint of the supplied
mean shape is not already the origin, the array observed after the call
differs from the one supplied, so state does leak across calls that share the
array (as calls using the module default do). -/
theorem mean_landmarks_mutated (warpFn : WarpRequest → Image)
    (est : String → List Vec2 → List Vec2 → Option Transform)
    (img : Image) (src mean : List Vec2) (cs : ℕ) (ff lf : ℚ)
    (alignType : String) (ord : ℕ) (mode : BorderMode) (r : CallResult)
    (h5 : mean.length = 5) (hne : eyeMid mean ≠ ⟨0, 0⟩)
    (hok : align_crop_5pts_opencv warpFn est img src mean cs ff lf alignType ord mode
      = Except.ok r) :
    r.meanFinal = recenterLandmarks mean ∧ r.meanFinal ≠ mean := by
  have hr : r.meanFinal = recenterLandmarks mean := by
    simp only [align_crop_5pts_opencv] at hok
    split at hok
    · split at hok
      · exact absurd hok (by simp)
      · split at hok
        · exact absurd hok (by simp)
        · injection hok with h2
          subst h2
          rfl
    · exact absurd hok (by simp)
  refine ⟨hr, ?_⟩
  rw [hr]
  intro he
  apply hne
  obtain ⟨a, b, c, d, e, rfl⟩ := five_elems mean h5
  have hh := congrArg (fun l => pt l 0) he
  simp [recenterLandmarks, pt] at hh
  have hx := congrArg Vec2.x hh
  have hy := congrArg Vec2.y hh
  simp [Vec2.sub] at hx hy
  ext
  · simp
    linarith
  · simp
    linarith

/-- C9 witness: the mutation theorem applied at a concrete call with a simple
mean shape whose eye midpoint is (0, -1): the final mean array is the
recentered shape and differs from the supplied one. -/
theorem mean_landmarks_mutated_wit :
    resMeanFinal (align_crop_5pts_opencv modelWarp simpleEst imgBig srcT meanSimple
        512 (65 / 100) (35 / 100) "similarity" 3 BorderMode.edge)
      = some (recenterLandmarks meanSimple)
    ∧ resMeanFinal (align_crop_5pts_opencv modelWarp simpleEst imgBig srcT meanSimple
        512 (65 / 100) (35 / 100) "similarity" 3 BorderMode.edge) ≠ some meanSimple := by
  cases hok : align_crop_5pts_opencv modelWarp simpleEst imgBig srcT meanSimple
      512 (65 / 100) (35 / 100) "similarity" 3 BorderMode.edge with
  | error e =>
    have hIs : (align_crop_5pts_opencv modelWarp simpleEst imgBig srcT meanSimple
        512 (65 / 100) (35 / 100) "similarity" 3 BorderMode.edge).isOk = true := by decide
    rw [hok] at hIs
    simp [Except.isOk, Except.toBool] at hIs
  | ok r =>
    have h := mean_landmarks_mutated modelWarp simpleEst imgBig srcT meanSimple
      512 (65 / 100) (35 / 100) "similarity" 3 BorderMode.edge r (by decide)
      (by simp [eyeMid, pt, meanSimple, Vec2.add, Vec2.smul]) hok
    constructor
    · rw [show resMeanFinal (Except.ok r) = some r.meanFinal from rfl, h.1]
    · rw [show resMeanFinal (Except.ok r) = some r.meanFinal from rfl]
      intro hcon
      exact h.2 (Option.some.inj hcon)

/-- C9 counterexample: a call made with the module default mean shape does not
leave the shared array unchanged — the observable `mean_landmarks` state after
the call differs from `_DEFAULT_MEAN_LANDMARKS`, so a subsequent call with the
default sees changed state, refuting the no-shared-mutable-state claim. -/
theorem default_mean_landmarks_changed :
    resMeanFinal (align_crop_5pts_opencv modelWarp simpleEst img256 srcT
        _DEFAULT_MEAN_LANDMARKS 512 (65 / 100) (35 / 100) "similarity" 3 BorderMode.edge)
    ≠ some _DEFAULT_MEAN_LANDMARKS := by
  have h1 : resMeanFinal (align_crop_5pts_opencv modelWarp simpleEst img256 srcT
      _DEFAULT_MEAN_LANDMARKS 512 (65 / 100) (35 / 100) "similarity" 3 BorderMode.edge)
      = some (recenterLandmarks _DEFAULT_MEAN_LANDMARKS) := rfl
  rw [h1]
  intro h
  have h2 := Option.some.inj h
  have h3 := congrArg (fun l => (pt l 0).x) h2
  simp [recenterLandmarks, eyeMid, pt, _DEFAULT_MEAN_LANDMARKS,
    Vec2.sub, Vec2.add, Vec2.smul] at h3
  norm_num at h3

/-- C10 witness: idempotence applied to the module default mean shape. -/
theorem recenter_idempotent_wit :
    recenterLandmarks (recenterLandmarks _DEFAULT_MEAN_LANDMARKS)
      = recenterLandmarks _DEFAULT_MEAN_LANDMARKS
    ∧ projectLandmarks (recenterLandmarks (recenterLandmarks _DEFAULT_MEAN_LANDMARKS))
        (7 / 2) ⟨300, 300⟩
      = projectLandmarks (recenterLandmarks _DEFAULT_MEAN_LANDMARKS) (7 / 2) ⟨300, 300⟩ :=
  recenter_idempotent _DEFAULT_MEAN_LANDMARKS (7 / 2) ⟨300, 300⟩ (by decide)

end Cropper
